import Mathlib

/-!
Shallow embedding of the Paulie5/pomodoro timer core.

The repository has two revisions of the same script:
* `script.js` (variant A below): plain setInterval countdown that
  decrements `state.timeRemaining` once per tick, with a `sessionCount`
  field incremented on Work-mode completion, plus an appended
  `timer-worker.js` message handler (modelled as the worker machine at
  the end of this file).
* `src/unnamed/part_001` (variant B below): a worker-driven revision
  whose `state` object has no `sessionCount` field, whose `timerComplete`
  only pauses, and which additionally contains the unused
  timestamp-based functions `startTimerWithTimestamps`,
  `pauseTimerWithTimestamps`, `resetTimerWithTimestamps` (the TWT
  machine below).

Times are milliseconds as `Int`; `Math.floor(x / 1000)` is `Int.fdiv`.
-/

namespace Pomodoro

/-- The three recognized timer modes: the keys `work`, `short-break` and
`long-break` of `state.durations`. -/
inductive Mode where
  | work
  | shortBreak
  | longBreak
  deriving DecidableEq

/-- The `state.durations` object: one nominal duration (seconds) per mode. -/
structure Durations where
  work : Int
  shortBreak : Int
  longBreak : Int
  deriving DecidableEq

/-- Property access `state.durations[mode]` for a recognized mode. -/
def Durations.get (d : Durations) : Mode → Int
  | .work => d.work
  | .shortBreak => d.shortBreak
  | .longBreak => d.longBreak

/-- The configured durations: `work: 25*60, short-break: 5*60, long-break: 15*60`. -/
def defaultDurations : Durations :=
  { work := 25 * 60, shortBreak := 5 * 60, longBreak := 15 * 60 }

/-! ## Variant A: `script.js` -/

/-- The `state` object of `script.js`, lines 74-92.  `liveIntervals`
counts the live `setInterval` handles (the `timerInterval` slot holds at
most one id; `setInterval` creates a handle, `clearInterval` releases
it), so that claims about the number of active tick sources can be
stated. -/
structure StateA where
  durations : Durations
  currentMode : Mode
  timeRemaining : Int
  isRunning : Bool
  sessionCount : Nat
  liveIntervals : Nat
  deriving DecidableEq

/-- Initial state: `currentMode: 'work'`, `timeRemaining: 25*60`,
`isRunning: false`, `sessionCount: 0`, `timerInterval: null`. -/
def initA : StateA :=
  { durations := defaultDurations
    currentMode := .work
    timeRemaining := 25 * 60
    isRunning := false
    sessionCount := 0
    liveIntervals := 0 }

/-- `startTimer` (script.js lines 367-394): guard `if (state.isRunning)
return`, then `isRunning = true` and `setInterval(...)` (one new live
interval).  The interval callback itself is `intervalTick` below. -/
def startTimer (s : StateA) : StateA :=
  if s.isRunning then s
  else { s with isRunning := true, liveIntervals := s.liveIntervals + 1 }

/-- `pauseTimer` (script.js lines 414-432): guard `if (!state.isRunning)
return`, then `isRunning = false`, `clearInterval(state.timerInterval)`
(one fewer live interval), `timerInterval = null`. -/
def pauseTimer (s : StateA) : StateA :=
  if s.isRunning then { s with isRunning := false, liveIntervals := s.liveIntervals - 1 }
  else s

/-- `timerComplete` (script.js lines 483-506): `pauseTimer()`, then
`if (state.currentMode === 'work') state.sessionCount++` (the DOM
animation and notifications have no timer state). -/
def timerComplete (s : StateA) : StateA :=
  let s1 := pauseTimer s
  if s1.currentMode = .work then { s1 with sessionCount := s1.sessionCount + 1 }
  else s1

/-- `resetTimer` (script.js lines 450-461): `pauseTimer()` then
`state.timeRemaining = state.durations[state.currentMode]`. -/
def resetTimer (s : StateA) : StateA :=
  let s1 := pauseTimer s
  { s1 with timeRemaining := s1.durations.get s1.currentMode }

/-- `switchMode` (script.js lines 516-530) at a recognized mode:
`if (mode === state.currentMode) return`, else `pauseTimer()`,
`state.currentMode = mode`, `state.timeRemaining = state.durations[mode]`. -/
def switchMode (m : Mode) (s : StateA) : StateA :=
  if m = s.currentMode then s
  else
    let s1 := pauseTimer s
    { s1 with currentMode := m, timeRemaining := s1.durations.get m }

/-- One firing of the `setInterval` callback of `startTimer` (script.js
lines 380-393): `state.timeRemaining--`, then
`if (state.timeRemaining <= 0) timerComplete()`.  The callback exists
exactly while the timer is running (`startTimer` creates it,
`pauseTimer` clears it), so a tick delivered while not running does
nothing. -/
def intervalTick (s : StateA) : StateA :=
  if s.isRunning then
    let s1 := { s with timeRemaining := s.timeRemaining - 1 }
    if s1.timeRemaining ≤ 0 then timerComplete s1 else s1
  else s

/-- The commands and tick events that drive variant A. -/
inductive EventA where
  | start
  | pause
  | reset
  | switch (m : Mode)
  | tick
  deriving DecidableEq

/-- One step of the variant-A state machine. -/
def stepA (s : StateA) : EventA → StateA
  | .start => startTimer s
  | .pause => pauseTimer s
  | .reset => resetTimer s
  | .switch m => switchMode m s
  | .tick => intervalTick s

/-- Run a sequence of events from a state. -/
def runA (s : StateA) (es : List EventA) : StateA :=
  es.foldl stepA s

example : (runA initA [EventA.start, EventA.tick]).timeRemaining = 1499 := by decide

/-! ## Variant B: `src/unnamed/part_001` (worker-driven revision) -/

/-- The `state` object of part_001, lines 74-91.  That object has no
`sessionCount` key, so reading `state.sessionCount` (as
`showBrowserNotification` still does) yields the JS `undefined`; the
field is therefore an `Option Nat` that starts as `none` and is never
written by any operation of this variant. -/
structure StateB where
  durations : Durations
  currentMode : Mode
  timeRemaining : Int
  isRunning : Bool
  sessionCount : Option Nat
  deriving DecidableEq

/-- Initial part_001 state: `work`, `25*60`, not running, and no
`sessionCount` property. -/
def initB : StateB :=
  { durations := defaultDurations
    currentMode := .work
    timeRemaining := 25 * 60
    isRunning := false
    sessionCount := none }

/-- `pauseTimer` (part_001 lines 651-665): guard on `!state.isRunning`,
set `isRunning = false`, and post `{action: 'pause'}` to the worker
(only the worker's own state changes there). -/
def pauseTimerB (s : StateB) : StateB :=
  if s.isRunning then { s with isRunning := false }
  else s

/-- `timerComplete` (part_001 lines 714-734): `pauseTimer()` plus DOM
animation, quote rotation and notifications — no write to any session
counter. -/
def timerCompleteB (s : StateB) : StateB :=
  pauseTimerB s

/-- The messages the background worker posts to the main thread:
`{type: 'tick', remaining, elapsed}` or `{type: 'complete'}`. -/
inductive WorkerMsg where
  | tick (remaining elapsed : Int)
  | complete
  deriving DecidableEq

/-- `timerWorker.onmessage` (part_001 lines 113-127): a `tick` message
sets `state.timeRemaining = remaining` unconditionally; a `complete`
message calls `timerComplete()`.  There is no check of
`state.isRunning` before applying the message. -/
def handleWorkerMessage (s : StateB) : WorkerMsg → StateB
  | .tick remaining _ => { s with timeRemaining := remaining }
  | .complete => timerCompleteB s

/-! ## The timestamp-based functions of part_001 (lines 139-217) -/

/-- State visible to `startTimerWithTimestamps` /
`pauseTimerWithTimestamps`: the shared `state` object plus the globals
`timerStartTime` (nullable instant, ms) and `pausedTime` (ms), and
whether the display interval is live. -/
structure StateT where
  durations : Durations
  currentMode : Mode
  timeRemaining : Int
  isRunning : Bool
  timerStartTime : Option Int
  pausedTime : Int
  timerInterval : Bool
  deriving DecidableEq

/-- Initial state for the timestamp-based variant. -/
def initT : StateT :=
  { durations := defaultDurations
    currentMode := .work
    timeRemaining := 25 * 60
    isRunning := false
    timerStartTime := none
    pausedTime := 0
    timerInterval := false }

/-- `startTimerWithTimestamps` (part_001 lines 170-191) at wall-clock
time `now`: guard on `isRunning`, then `isRunning = true`,
`timerStartTime = Date.now()`, `pausedTime = 0`, and a new display
interval. -/
def startTimerWithTimestamps (now : Int) (s : StateT) : StateT :=
  if s.isRunning then s
  else
    { s with isRunning := true
             timerStartTime := some now
             pausedTime := 0
             timerInterval := true }

/-- One firing of the interval created by `startTimerWithTimestamps`
(part_001 lines 179-190) at time `now`:
`elapsed = Math.floor((Date.now() - timerStartTime - pausedTime)/1000)`,
`remaining = durations[mode] - elapsed`,
`timeRemaining = Math.max(0, remaining)`, and on
`timeRemaining <= 0` the call to `timerComplete()` pauses and clears
the interval. -/
def tickWithTimestamps (now : Int) (s : StateT) : StateT :=
  if s.timerInterval then
    let elapsed := (now - s.timerStartTime.getD 0 - s.pausedTime).fdiv 1000
    let remaining := s.durations.get s.currentMode - elapsed
    let s1 := { s with timeRemaining := max 0 remaining }
    if s1.timeRemaining ≤ 0 then { s1 with isRunning := false, timerInterval := false }
    else s1
  else s

/-- `pauseTimerWithTimestamps` (part_001 lines 196-206) at time `now`:
guard on `!isRunning`, clear the interval, and
`pausedTime += Date.now() - timerStartTime -
(durations[mode] - timeRemaining) * 1000`. -/
def pauseTimerWithTimestamps (now : Int) (s : StateT) : StateT :=
  if s.isRunning then
    { s with isRunning := false
             timerInterval := false
             pausedTime := s.pausedTime +
               (now - s.timerStartTime.getD 0 -
                 (s.durations.get s.currentMode - s.timeRemaining) * 1000) }
  else s

/-- Events driving the timestamp-based variant, each carrying the
wall-clock time (ms) at which it happens. -/
inductive EventT where
  | start (now : Int)
  | tick (now : Int)
  | pause (now : Int)
  deriving DecidableEq

/-- One step of the timestamp-based machine. -/
def stepT (s : StateT) : EventT → StateT
  | .start now => startTimerWithTimestamps now s
  | .tick now => tickWithTimestamps now s
  | .pause now => pauseTimerWithTimestamps now s

/-- Run a timed event sequence. -/
def runT (s : StateT) (es : List EventT) : StateT :=
  es.foldl stepT s

/-! ## JS-value-level model of `switchMode` for unrecognized identifiers -/

/-- The `state.durations` lookup at an arbitrary JS string key:
`some` for the three recognized keys, `none` (JS `undefined`) otherwise. -/
def durationsOf : String → Option Int
  | "work" => some (25 * 60)
  | "short-break" => some (5 * 60)
  | "long-break" => some (15 * 60)
  | _ => none

/-- The script.js state with `currentMode` kept as the raw JS string and
`timeRemaining` as a JS number-or-undefined, so that
`switchMode('bogus')` can be evaluated as the dynamic language does. -/
structure StateJS where
  currentMode : String
  timeRemaining : Option Int
  isRunning : Bool
  sessionCount : Nat
  liveIntervals : Nat
  deriving DecidableEq

/-- Initial script.js state at the JS-value level. -/
def initJS : StateJS :=
  { currentMode := "work"
    timeRemaining := some (25 * 60)
    isRunning := false
    sessionCount := 0
    liveIntervals := 0 }

/-- `pauseTimer` at the JS-value level (same code as `pauseTimer`). -/
def pauseTimerJS (s : StateJS) : StateJS :=
  if s.isRunning then { s with isRunning := false, liveIntervals := s.liveIntervals - 1 }
  else s

/-- `switchMode` (script.js lines 516-530) applied to an arbitrary
string: the only guard is `mode === state.currentMode`; otherwise it
pauses, sets `currentMode = mode` and
`timeRemaining = state.durations[mode]`, which is `undefined` for an
unrecognized key. -/
def switchModeJS (m : String) (s : StateJS) : StateJS :=
  if m = s.currentMode then s
  else
    let s1 := pauseTimerJS s
    { s1 with currentMode := m, timeRemaining := durationsOf m }

/-! ## The background worker (`timer-worker.js`, script.js lines 810-866) -/

/-- Worker-side state: `intervals` lists the ids of the live
`setInterval` handles (`setInterval` allocates a fresh id without
clearing earlier ones; `clearInterval(timerInterval)` releases only the
id currently stored in the worker-global `timerInterval` variable),
plus the worker globals `startTime` and `duration`. -/
structure WState where
  intervals : List Nat
  nextId : Nat
  timerInterval : Option Nat
  startTime : Option Int
  duration : Int
  deriving DecidableEq

/-- Worker initial state: `timerInterval = null`, `startTime = null`,
`duration = 0`; `setInterval` ids start at 1 (they are truthy in JS). -/
def winit : WState :=
  { intervals := []
    nextId := 1
    timerInterval := none
    startTime := none
    duration := 0 }

/-- Inputs to the worker: the commands posted by the main thread
(`start` carries `data.duration` and happens at wall-clock `now`)
and the firing of a live interval callback `id` at time `now`. -/
inductive WEvent where
  | start (duration now : Int)
  | pause
  | reset
  | fire (id : Nat) (now : Int)
  deriving DecidableEq

/-- One worker step (script.js lines 821-866), returning the new state
and the messages posted to the main thread, in order.
* `start`: `startTime = Date.now()`, `duration = data.duration`,
  `timerInterval = setInterval(...)` — a fresh live interval.
* `pause`: `if (timerInterval) { clearInterval(timerInterval);
  timerInterval = null; }`.
* `reset`: same clear, then `startTime = null; duration = 0`.
* a live interval firing: `elapsed = Math.floor((Date.now() -
  startTime)/1000)`, `remaining = Math.max(0, duration - elapsed)`,
  post `tick`, and if `remaining <= 0` then
  `clearInterval(timerInterval)` and post `complete` (the variable
  `timerInterval` is not nulled in this branch). -/
def wstep (s : WState) : WEvent → WState × List WorkerMsg
  | .start d now =>
      ({ s with startTime := some now
                duration := d
                intervals := s.intervals ++ [s.nextId]
                timerInterval := some s.nextId
                nextId := s.nextId + 1 }, [])
  | .pause =>
      (match s.timerInterval with
       | some i => { s with intervals := s.intervals.erase i, timerInterval := none }
       | none => s, [])
  | .reset =>
      (match s.timerInterval with
       | some i =>
           { s with intervals := s.intervals.erase i
                    timerInterval := none
                    startTime := none
                    duration := 0 }
       | none => { s with startTime := none, duration := 0 }, [])
  | .fire id now =>
      if id ∈ s.intervals then
        let elapsed := (now - s.startTime.getD 0).fdiv 1000
        let remaining := max 0 (s.duration - elapsed)
        if remaining ≤ 0 then
          (match s.timerInterval with
           | some i => { s with intervals := s.intervals.erase i }
           | none => s,
           [WorkerMsg.tick remaining elapsed, WorkerMsg.complete])
        else (s, [WorkerMsg.tick remaining elapsed])
      else (s, [])

/-- Run the worker over an event sequence, collecting all posted
messages in order. -/
def wrun (s : WState) : List WEvent → WState × List WorkerMsg
  | [] => (s, [])
  | e :: es =>
      let p := wstep s e
      let q := wrun p.1 es
      (q.1, p.2 ++ q.2)

/-- True when an event sequence contains no `start` command. -/
def noStart (es : List WEvent) : Bool :=
  es.all fun e => match e with
    | .start _ _ => false
    | _ => true

/-! ## `formatTime` (script.js lines 202-223) -/

/-- The character a single decimal digit prints as in
`Number.prototype.toString`. -/
def digitChar : Nat → Char
  | 0 => '0'
  | 1 => '1'
  | 2 => '2'
  | 3 => '3'
  | 4 => '4'
  | 5 => '5'
  | 6 => '6'
  | 7 => '7'
  | 8 => '8'
  | 9 => '9'
  | _ => '*'

/-- Digit expansion with explicit fuel, so that the definition is
structurally recursive; `natToDigits` below supplies enough fuel.  When
the fuel bounds the number, the result is the decimal numeral of `n`,
most significant digit first. -/
def natToDigitsAux : Nat → Nat → List Char
  | 0, n => [digitChar n]
  | fuel + 1, n =>
      if n < 10 then [digitChar n]
      else natToDigitsAux fuel (n / 10) ++ [digitChar (n % 10)]

/-- The character list of `n.toString()` for a non-negative integer:
decimal digits, most significant first. -/
def natToDigits (n : Nat) : List Char :=
  natToDigitsAux n n

/-- `str.padStart(2, '0')`: prepend zeros until the length is at
least 2. -/
def padStart2 (ds : List Char) : List Char :=
  if ds.length < 2 then List.replicate (2 - ds.length) '0' ++ ds else ds

/-- `formatTime` (script.js lines 202-223):
`minutes = Math.floor(seconds / 60)`, `remainingSeconds = seconds % 60`,
each rendered with `toString().padStart(2, '0')` and joined by a colon
in a template literal. -/
def formatTime (seconds : Nat) : String :=
  String.mk (padStart2 (natToDigits (seconds / 60)) ++ ':' :: padStart2 (natToDigits (seconds % 60)))

/-- The numeric value of a decimal digit character, if it is one. -/
def digitVal (c : Char) : Option Nat :=
  if 48 ≤ c.toNat ∧ c.toNat ≤ 57 then some (c.toNat - 48) else none

/-- One step of reading a decimal numeral left to right. -/
def parseStep (acc : Option Nat) (c : Char) : Option Nat :=
  match acc, digitVal c with
  | some a, some v => some (a * 10 + v)
  | _, _ => none

/-- Read a (possibly zero-padded) decimal numeral. -/
def parseDigits (ds : List Char) : Option Nat :=
  ds.foldl parseStep (some 0)

/-- Split a character list at its first colon. -/
def splitAtColon : List Char → Option (List Char × List Char)
  | [] => none
  | c :: rest =>
      if c = ':' then some ([], rest)
      else
        match splitAtColon rest with
        | some p => some (c :: p.1, p.2)
        | none => none

/-- Decode an `"MM:SS"` string back to seconds: split at the colon,
read both components as decimal numerals, and return
`minutes * 60 + seconds`. -/
def parseTime (str : String) : Option Nat :=
  match splitAtColon str.data with
  | some p =>
      match parseDigits p.1, parseDigits p.2 with
      | some m, some sec => some (m * 60 + sec)
      | _, _ => none
  | none => none

example : formatTime 65 = "01:05" := by decide
example : parseTime "61:01" = some 3661 := by decide

/-! ## Field bookkeeping for the variant-A operations -/

@[simp] theorem pauseTimer_durations (s : StateA) : (pauseTimer s).durations = s.durations := by
  unfold pauseTimer; split <;> rfl

@[simp] theorem pauseTimer_currentMode (s : StateA) : (pauseTimer s).currentMode = s.currentMode := by
  unfold pauseTimer; split <;> rfl

@[simp] theorem pauseTimer_timeRemaining (s : StateA) :
    (pauseTimer s).timeRemaining = s.timeRemaining := by
  unfold pauseTimer; split <;> rfl

@[simp] theorem pauseTimer_sessionCount (s : StateA) :
    (pauseTimer s).sessionCount = s.sessionCount := by
  unfold pauseTimer; split <;> rfl

@[simp] theorem pauseTimer_isRunning (s : StateA) : (pauseTimer s).isRunning = false := by
  unfold pauseTimer; split
  · rfl
  · simp_all

@[simp] theorem startTimer_durations (s : StateA) : (startTimer s).durations = s.durations := by
  unfold startTimer; split <;> rfl

@[simp] theorem startTimer_currentMode (s : StateA) : (startTimer s).currentMode = s.currentMode := by
  unfold startTimer; split <;> rfl

@[simp] theorem startTimer_timeRemaining (s : StateA) :
    (startTimer s).timeRemaining = s.timeRemaining := by
  unfold startTimer; split <;> rfl

@[simp] theorem startTimer_sessionCount (s : StateA) :
    (startTimer s).sessionCount = s.sessionCount := by
  unfold startTimer; split <;> rfl

@[simp] theorem timerComplete_durations (s : StateA) :
    (timerComplete s).durations = s.durations := by
  simp only [timerComplete]
  split_ifs <;> simp

@[simp] theorem timerComplete_currentMode (s : StateA) :
    (timerComplete s).currentMode = s.currentMode := by
  simp only [timerComplete]
  split_ifs <;> simp

@[simp] theorem timerComplete_timeRemaining (s : StateA) :
    (timerComplete s).timeRemaining = s.timeRemaining := by
  simp only [timerComplete]
  split_ifs <;> simp

@[simp] theorem timerComplete_isRunning (s : StateA) :
    (timerComplete s).isRunning = false := by
  simp only [timerComplete]
  split_ifs <;> simp

theorem timerComplete_sessionCount (s : StateA) :
    (timerComplete s).sessionCount =
      if s.currentMode = Mode.work then s.sessionCount + 1 else s.sessionCount := by
  simp only [timerComplete]
  by_cases h : s.currentMode = Mode.work <;> simp [h]

theorem intervalTick_sessionCount_le (s : StateA) :
    s.sessionCount ≤ (intervalTick s).sessionCount := by
  simp only [intervalTick]
  split_ifs with h1 h2
  · rw [timerComplete_sessionCount]
    split_ifs <;> simp
  · simp
  · simp

@[simp] theorem resetTimer_durations (s : StateA) : (resetTimer s).durations = s.durations := by
  unfold resetTimer; simp

@[simp] theorem resetTimer_currentMode (s : StateA) :
    (resetTimer s).currentMode = s.currentMode := by
  unfold resetTimer; simp

@[simp] theorem resetTimer_sessionCount (s : StateA) :
    (resetTimer s).sessionCount = s.sessionCount := by
  unfold resetTimer; simp

@[simp] theorem resetTimer_timeRemaining (s : StateA) :
    (resetTimer s).timeRemaining = s.durations.get s.currentMode := by
  unfold resetTimer; simp

@[simp] theorem resetTimer_isRunning (s : StateA) : (resetTimer s).isRunning = false := by
  unfold resetTimer; simp

@[simp] theorem switchMode_durations (m : Mode) (s : StateA) :
    (switchMode m s).durations = s.durations := by
  unfold switchMode; split <;> simp

@[simp] theorem switchMode_sessionCount (m : Mode) (s : StateA) :
    (switchMode m s).sessionCount = s.sessionCount := by
  unfold switchMode; split <;> simp

@[simp] theorem pauseTimerB_durations (s : StateB) : (pauseTimerB s).durations = s.durations := by
  unfold pauseTimerB; split <;> rfl

@[simp] theorem pauseTimerB_currentMode (s : StateB) :
    (pauseTimerB s).currentMode = s.currentMode := by
  unfold pauseTimerB; split <;> rfl

@[simp] theorem pauseTimerB_sessionCount (s : StateB) :
    (pauseTimerB s).sessionCount = s.sessionCount := by
  unfold pauseTimerB; split <;> rfl

@[simp] theorem pauseTimerB_isRunning (s : StateB) : (pauseTimerB s).isRunning = false := by
  unfold pauseTimerB; split
  · rfl
  · simp_all

@[simp] theorem pauseTimerJS_currentMode (s : StateJS) :
    (pauseTimerJS s).currentMode = s.currentMode := by
  unfold pauseTimerJS; split <;> rfl

@[simp] theorem pauseTimerJS_sessionCount (s : StateJS) :
    (pauseTimerJS s).sessionCount = s.sessionCount := by
  unfold pauseTimerJS; split <;> rfl

@[simp] theorem pauseTimerJS_isRunning (s : StateJS) : (pauseTimerJS s).isRunning = false := by
  unfold pauseTimerJS; split
  · rfl
  · simp_all

/-! ## C1: pause/resume additivity of the timestamp-based timer -/

/-- The C1 trace: run 90 s, pause for 60 s, resume, run 1 s. -/
def c1Trace : List EventT :=
  [EventT.start 0, EventT.tick 90000, EventT.pause 90000,
   EventT.start 150000, EventT.tick 151000]

/-- C1: pause/resume additivity fails in
`startTimerWithTimestamps`/`pauseTimerWithTimestamps`.  Starting at
1500 s, after 90 running seconds the remaining time is 1410; but after
pausing and resuming, the first tick of the resumed segment recomputes
from the full nominal duration minus the time since the latest `start`
(`start` rebased `timerStartTime` and zeroed `pausedTime`), giving
1499 instead of the 1409 (±1) that additivity over the 91 running
seconds requires: `remainingSeconds` decreased by only 1 in total. -/
theorem c1_timestamp_resume_bug :
    (runT initT [EventT.start 0, EventT.tick 90000, EventT.pause 90000]).timeRemaining = 1410 ∧
    (runT initT c1Trace).timeRemaining = 1499 ∧
    initT.timeRemaining - (runT initT c1Trace).timeRemaining = 1 := by
  decide

/-! ## C2: sessionCount across the two variants -/

/-- C2: in `script.js`, `sessionCount` never decreases under any event
and a Work-mode completion increments it by exactly 1; but in the
part_001 variant a Work-mode completion (a `complete` message from the
worker) leaves the session counter undefined — its `timerComplete`
never increments anything and its `state` has no `sessionCount`
field. -/
theorem c2_sessionCount_variants :
    (∀ (s : StateA) (e : EventA), s.sessionCount ≤ (stepA s e).sessionCount) ∧
    (timerComplete
        { initA with isRunning := true, liveIntervals := 1, timeRemaining := 0 }).sessionCount = 1 ∧
    (handleWorkerMessage
        { initB with isRunning := true, timeRemaining := 0 } WorkerMsg.complete).sessionCount = none := by
  refine ⟨?_, by decide, by decide⟩
  intro s e
  cases e with
  | start => simp [stepA]
  | pause => simp [stepA]
  | reset => simp [stepA]
  | switch m => simp [stepA]
  | tick => simpa [stepA] using intervalTick_sessionCount_le s

/-! ## C3: remaining time after switchMode and reset -/

/-- The state used to refute C3: run one second in Work mode, pause,
then issue `switchMode('work')` — the same-mode guard makes it a no-op. -/
def c3PostState : StateA :=
  switchMode Mode.work (runA initA [EventA.start, EventA.tick, EventA.pause])

/-- C3 counterexample: immediately after `switchMode(m)` with `m` equal
to the current mode, `remainingSeconds` does not equal
`durationOf(mode)`: the call is a no-op and the partially elapsed value
1499 survives, while `durationOf(work) = 1500`. -/
theorem c3_counterexample :
    c3PostState.currentMode = Mode.work ∧
    c3PostState.timeRemaining ≠ c3PostState.durations.get c3PostState.currentMode := by
  decide

/-- C3 amended: after `switchMode(m)` with `m` different from the
current mode, `remainingSeconds = durationOf(m)`; after `reset()`,
`remainingSeconds = durationOf(current mode)`; but `switchMode` at the
current mode is a no-op that leaves the state — including a partially
elapsed `remainingSeconds` — unchanged. -/
theorem c3_amended (s : StateA) (m : Mode) :
    (m ≠ s.currentMode → (switchMode m s).timeRemaining = s.durations.get m) ∧
    (resetTimer s).timeRemaining = s.durations.get s.currentMode ∧
    switchMode s.currentMode s = s := by
  refine ⟨fun h => ?_, by simp, by simp [switchMode]⟩
  unfold switchMode
  rw [if_neg h]
  simp

/-- C3 witness: switching from Work to ShortBreak loads the nominal
300-second break duration. -/
theorem c3_amended_witness :
    (switchMode Mode.shortBreak initA).timeRemaining = initA.durations.get Mode.shortBreak :=
  (c3_amended initA Mode.shortBreak).1 (by decide)

/-! ## C5: stale worker messages -/

/-- The paused part_001 state used to refute C5: the timer was paused
right after a tick left 1499 s remaining, while a second tick message
was already in flight. -/
def c5PausedState : StateB :=
  { initB with timeRemaining := 1499 }

/-- C5 counterexample: a tick snapshot delivered while `isRunning` is
false is not discarded — the `onmessage` handler overwrites
`remainingSeconds` with the snapshot value (1499 becomes 1498), so the
state does not stay unchanged. -/
theorem c5_counterexample :
    c5PausedState.isRunning = false ∧
    (handleWorkerMessage c5PausedState (WorkerMsg.tick 1498 2)).timeRemaining ≠
      c5PausedState.timeRemaining := by
  decide

/-- C5 amended: the handler performs no running-flag check — a tick
message always overwrites `remainingSeconds` (and touches nothing
else), whether or not the timer is still running; a stale `complete`
message happens to leave the state unchanged only because
`timerComplete` delegates to `pauseTimer`, whose own not-running guard
makes it a no-op. -/
theorem c5_amended (s : StateB) (r e : Int) :
    handleWorkerMessage s (WorkerMsg.tick r e) = { s with timeRemaining := r } ∧
    (s.isRunning = false → handleWorkerMessage s WorkerMsg.complete = s) := by
  refine ⟨rfl, fun h => ?_⟩
  simp [handleWorkerMessage, timerCompleteB, pauseTimerB, h]

/-- C5 witness: a stale `complete` message leaves the freshly
initialized (paused) state unchanged. -/
theorem c5_amended_witness :
    handleWorkerMessage initB WorkerMsg.complete = initB :=
  (c5_amended initB 0 0).2 rfl

/-! ## C6: switchMode with an unrecognized identifier -/

/-- C6 counterexample: `switchMode('bogus')` is not a no-op — it
changes the state, setting `currentMode` to the unrecognized string and
`remainingSeconds` to the `undefined` produced by the missed
`durations` lookup. -/
theorem c6_counterexample :
    switchModeJS "bogus" initJS ≠ initJS ∧
    (switchModeJS "bogus" initJS).currentMode = "bogus" ∧
    (switchModeJS "bogus" initJS).timeRemaining = none := by
  decide

/-- C6 amended: `switchMode` with an unrecognized identifier distinct
from the current mode is not rejected: it pauses the timer, sets
`currentMode` to the unrecognized identifier and `remainingSeconds` to
`undefined` (the `durations[mode]` lookup misses); `sessionCount` is
unchanged and no exception is thrown — the corruption is silent. -/
theorem c6_amended (s : StateJS) (m : String) (hm : m ≠ s.currentMode)
    (hd : durationsOf m = none) :
    (switchModeJS m s).currentMode = m ∧
    (switchModeJS m s).timeRemaining = none ∧
    (switchModeJS m s).isRunning = false ∧
    (switchModeJS m s).sessionCount = s.sessionCount := by
  unfold switchModeJS
  rw [if_neg hm]
  simp [hd]

/-- C6 witness: the amended behavior at `switchMode('bogus')` from the
initial state. -/
theorem c6_amended_witness :
    (switchModeJS "bogus" initJS).sessionCount = initJS.sessionCount :=
  (c6_amended initJS "bogus" (by decide) (by decide)).2.2.2

/-! ## C7: idempotence of redundant commands -/

/-- The variant-A relationship between the running flag and the number
of live `setInterval` handles: exactly one while running, none while
paused. -/
abbrev intervalInv (s : StateA) : Prop :=
  s.liveIntervals = (if s.isRunning then 1 else 0)

/-- C7: `start();start()` equals `start()` (and exactly one tick source
is live afterwards), `pause();pause()` equals `pause()`, and
`reset();reset()` equals `reset()`. -/
theorem c7_idempotent (s : StateA) :
    startTimer (startTimer s) = startTimer s ∧
    pauseTimer (pauseTimer s) = pauseTimer s ∧
    resetTimer (resetTimer s) = resetTimer s ∧
    (intervalInv s → (startTimer (startTimer s)).liveIntervals = 1) := by
  refine ⟨?_, ?_, ?_, fun h => ?_⟩
  · by_cases hr : s.isRunning = true <;> simp [startTimer, hr]
  · by_cases hr : s.isRunning = true <;> simp [pauseTimer, hr]
  · by_cases hr : s.isRunning = true <;>
      simp [resetTimer, pauseTimer, hr]
  · by_cases hr : s.isRunning = true <;> simp_all [startTimer, hr, intervalInv]

/-- C7 witness: from the initial state, two consecutive starts leave
exactly one live interval. -/
theorem c7_idempotent_witness :
    (startTimer (startTimer initA)).liveIntervals = 1 :=
  (c7_idempotent initA).2.2.2 (by decide)

/-! ## C8: frame condition of the completion handler -/

/-- C8: in both variants the completion handler ends with the timer not
running, the mode unchanged (no auto-advance) and the configured
durations unchanged; and no variant-A event other than an explicit
`switchMode` ever changes the mode. -/
theorem c8_completion_frame (s : StateA) (t : StateB) :
    (timerComplete s).isRunning = false ∧
    (timerComplete s).currentMode = s.currentMode ∧
    (timerComplete s).durations = s.durations ∧
    (timerCompleteB t).isRunning = false ∧
    (timerCompleteB t).currentMode = t.currentMode ∧
    (timerCompleteB t).durations = t.durations ∧
    (startTimer s).currentMode = s.currentMode ∧
    (pauseTimer s).currentMode = s.currentMode ∧
    (resetTimer s).currentMode = s.currentMode ∧
    (intervalTick s).currentMode = s.currentMode := by
  refine ⟨by simp, by simp, by simp, by simp [timerCompleteB], by simp [timerCompleteB],
    by simp [timerCompleteB], by simp, by simp, by simp, ?_⟩
  simp only [intervalTick]
  split_ifs <;> simp

/-! ## C4: bounds on remainingSeconds over reachable states -/

@[simp] theorem intervalTick_durations (s : StateA) :
    (intervalTick s).durations = s.durations := by
  simp only [intervalTick]
  split_ifs <;> simp

theorem intervalTick_of_not_running (s : StateA) (h : s.isRunning = false) :
    intervalTick s = s := by
  simp [intervalTick, h]

/-- The upper bound: `remainingSeconds` never exceeds the configured
duration of the current mode. -/
abbrev UInvA (s : StateA) : Prop :=
  s.timeRemaining ≤ s.durations.get s.currentMode

/-- The invariant behind the lower bound: durations are the defaults
(all positive) and the countdown is positive whenever it is running. -/
abbrev LInvA (s : StateA) : Prop :=
  s.durations = defaultDurations ∧ 0 ≤ s.timeRemaining ∧
    (s.isRunning = true → 0 < s.timeRemaining)

/-- A trace is well-started when every `start` in it fires from a state
with a positive countdown. -/
def goodRun (s : StateA) : List EventA → Bool
  | [] => true
  | e :: es =>
      ((if e = EventA.start then decide (0 < s.timeRemaining) else true) &&
        goodRun (stepA s e) es)

theorem uinvA_step (s : StateA) (e : EventA) (h : UInvA s) : UInvA (stepA s e) := by
  cases e with
  | start => simpa [stepA, UInvA] using h
  | pause => simpa [stepA, UInvA] using h
  | reset => simp [stepA, UInvA]
  | switch m =>
      simp only [stepA, UInvA, switchMode]
      split_ifs with hm
      · exact h
      · simp
  | tick =>
      have h9 : s.timeRemaining ≤ s.durations.get s.currentMode := h
      simp only [stepA, UInvA, intervalTick]
      split_ifs with h1 h2
      · simp
        omega
      · simp
        omega
      · exact h9

theorem linvA_step (s : StateA) (e : EventA) (h : LInvA s)
    (hs : e = EventA.start → 0 < s.timeRemaining) : LInvA (stepA s e) := by
  obtain ⟨hd, hnn, hrun⟩ := h
  cases e with
  | start =>
      have hpos := hs rfl
      simp only [stepA, startTimer]
      split_ifs with hr
      · exact ⟨hd, hnn, hrun⟩
      · exact ⟨hd, hnn, fun _ => hpos⟩
  | pause =>
      refine ⟨by simp [stepA, hd], by simpa [stepA] using hnn, ?_⟩
      simp [stepA]
  | reset =>
      refine ⟨by simp [stepA, hd], ?_, ?_⟩ <;> simp [stepA, hd]
      · cases s.currentMode <;> simp [defaultDurations, Durations.get]
  | switch m =>
      simp only [stepA, switchMode]
      split_ifs with hm
      · exact ⟨hd, hnn, hrun⟩
      · refine ⟨by simp [hd], ?_, ?_⟩ <;> simp [hd]
        · cases m <;> simp [defaultDurations, Durations.get]
  | tick =>
      simp only [stepA, intervalTick]
      split_ifs with h1 h2
      · have hpos := hrun h1
        refine ⟨by simp [hd], ?_, by simp⟩
        simp
        omega
      · have hpos := hrun h1
        simp at h2
        refine ⟨by simp [hd], by simp; omega, ?_⟩
        intro _
        simp
        omega
      · exact ⟨hd, hnn, hrun⟩

theorem uinvA_run (es : List EventA) : ∀ s : StateA, UInvA s → UInvA (runA s es) := by
  induction es with
  | nil => intro s h; exact h
  | cons e es ih =>
      intro s h
      exact ih (stepA s e) (uinvA_step s e h)

theorem linvA_run (es : List EventA) :
    ∀ s : StateA, LInvA s → goodRun s es = true → LInvA (runA s es) := by
  induction es with
  | nil => intro s h _; exact h
  | cons e es ih =>
      intro s h hg
      rw [goodRun, Bool.and_eq_true] at hg
      refine ih (stepA s e) (linvA_step s e h fun he => ?_) hg.2
      subst he
      simpa using hg.1

/-- The C4 trace: complete a short break (300 ticks), then start the
expired timer again and let one tick fire. -/
def c4Trace : List EventA :=
  EventA.switch Mode.shortBreak :: EventA.start ::
    (List.replicate 300 EventA.tick ++ [EventA.start, EventA.tick])

/-- C4 counterexample: `remainingSeconds` is not always in
`[0, durationOf(mode)]` — starting an already-expired countdown lets
the next tick decrement it to -1 (the completion handler then pauses,
leaving the negative value in place). -/
theorem c4_counterexample :
    (runA initA c4Trace).timeRemaining = -1 ∧
    (runA initA c4Trace).timeRemaining < 0 := by
  set_option maxRecDepth 20000 in decide

/-- C4 amended: `remainingSeconds` never exceeds `durationOf(mode)` in
any reachable state, and it also stays non-negative along every trace
in which `start` is only issued while the countdown is positive;
issuing `start` on an expired countdown is the one way to drive it
below zero. -/
theorem c4_amended (es : List EventA) :
    (runA initA es).timeRemaining ≤
      (runA initA es).durations.get (runA initA es).currentMode ∧
    (goodRun initA es = true → 0 ≤ (runA initA es).timeRemaining) :=
  ⟨uinvA_run es initA (by decide),
   fun h => (linvA_run es initA (by decide) h).2.1⟩

/-- C4 witness: the bounds hold after a well-started start-tick trace. -/
theorem c4_amended_witness :
    0 ≤ (runA initA [EventA.start, EventA.tick]).timeRemaining :=
  (c4_amended [EventA.start, EventA.tick]).2 (by decide)

/-! ## C9: formatTime round-trips -/

theorem digitChar_ne_colon (d : Nat) : digitChar d ≠ ':' := by
  unfold digitChar
  split <;> decide

theorem digitVal_digitChar (d : Nat) (hd : d < 10) : digitVal (digitChar d) = some d := by
  interval_cases d <;> decide

theorem natToDigitsAux_ne_colon (fuel : Nat) :
    ∀ n : Nat, ∀ c ∈ natToDigitsAux fuel n, c ≠ ':' := by
  induction fuel with
  | zero =>
      intro n c hc
      simp only [natToDigitsAux, List.mem_singleton] at hc
      subst hc
      exact digitChar_ne_colon n
  | succ f ih =>
      intro n c hc
      by_cases h : n < 10
      · simp only [natToDigitsAux, if_pos h, List.mem_singleton] at hc
        subst hc
        exact digitChar_ne_colon n
      · simp only [natToDigitsAux, if_neg h, List.mem_append, List.mem_singleton] at hc
        rcases hc with hc | hc
        · exact ih (n / 10) c hc
        · subst hc
          exact digitChar_ne_colon (n % 10)

theorem padStart2_ne_colon (ds : List Char) (h : ∀ c ∈ ds, c ≠ ':') :
    ∀ c ∈ padStart2 ds, c ≠ ':' := by
  intro c hc
  unfold padStart2 at hc
  split at hc
  · rcases List.mem_append.mp hc with hc | hc
    · have := List.eq_of_mem_replicate hc
      subst this
      decide
    · exact h c hc
  · exact h c hc

theorem parseStep_replicate_zero (k : Nat) (ds : List Char) :
    List.foldl parseStep (some 0) (List.replicate k '0' ++ ds) =
      List.foldl parseStep (some 0) ds := by
  induction k with
  | zero => rfl
  | succ m ih =>
      rw [List.replicate_succ, List.cons_append, List.foldl_cons]
      have hz : parseStep (some 0) '0' = some 0 := by decide
      rw [hz]
      exact ih

theorem parse_natToDigitsAux (fuel : Nat) :
    ∀ n a : Nat, n ≤ fuel →
      List.foldl parseStep (some a) (natToDigitsAux fuel n) =
        some (a * 10 ^ (natToDigitsAux fuel n).length + n) := by
  induction fuel with
  | zero =>
      intro n a hn
      have h0 : n = 0 := by omega
      subst h0
      simp [natToDigitsAux, parseStep, digitVal_digitChar 0 (by omega)]
  | succ f ih =>
      intro n a hn
      by_cases h : n < 10
      · simp [natToDigitsAux, if_pos h, parseStep, digitVal_digitChar n h]
      · have hdivlt : n / 10 < n := Nat.div_lt_self (by omega) (by omega)
        have hdiv : n / 10 ≤ f := by omega
        simp only [natToDigitsAux, if_neg h]
        rw [List.foldl_append, ih (n / 10) a hdiv]
        have hstep :
            parseStep (some (a * 10 ^ (natToDigitsAux f (n / 10)).length + n / 10))
              (digitChar (n % 10)) =
            some ((a * 10 ^ (natToDigitsAux f (n / 10)).length + n / 10) * 10 + n % 10) := by
          simp [parseStep, digitVal_digitChar (n % 10) (Nat.mod_lt _ (by omega))]
        simp only [List.foldl_cons, List.foldl_nil, hstep, List.length_append,
          List.length_singleton]
        congr 1
        have harith :
            (a * 10 ^ (natToDigitsAux f (n / 10)).length + n / 10) * 10 + n % 10 =
              a * (10 ^ (natToDigitsAux f (n / 10)).length * 10) + (n / 10 * 10 + n % 10) := by
          ring
        have hdm : n / 10 * 10 + n % 10 = n := by omega
        rw [harith, hdm, ← pow_succ]

theorem parseDigits_natToDigits (n : Nat) : parseDigits (natToDigits n) = some n := by
  unfold parseDigits natToDigits
  rw [parse_natToDigitsAux n n 0 le_rfl]
  simp

theorem parseDigits_padStart2 (ds : List Char) :
    parseDigits (padStart2 ds) = parseDigits ds := by
  unfold padStart2
  split
  · exact parseStep_replicate_zero _ ds
  · rfl

theorem splitAtColon_append (l r : List Char) (h : ∀ c ∈ l, c ≠ ':') :
    splitAtColon (l ++ ':' :: r) = some (l, r) := by
  induction l with
  | nil => simp [splitAtColon]
  | cons c l ih =>
      have hc : c ≠ ':' := h c (List.mem_cons_self c l)
      rw [List.cons_append]
      simp only [splitAtColon, if_neg hc,
        ih fun x hx => h x (List.mem_cons_of_mem c hx)]

/-- C9: `formatTime` is a left-invertible encoding — for every
non-negative number of seconds it produces the two zero-padded decimal
components `floor(s/60)` and `s mod 60` joined by a colon, the minutes
component is uncapped (3661 prints as "61:01"), and decoding the two
components back as `minutes * 60 + seconds` recovers exactly the
input. -/
theorem c9_formatTime_roundtrip (s : Nat) :
    parseTime (formatTime s) = some s ∧
    formatTime s =
      String.mk (padStart2 (natToDigits (s / 60)) ++ ':' :: padStart2 (natToDigits (s % 60))) ∧
    formatTime 3661 = "61:01" := by
  refine ⟨?_, rfl, by decide⟩
  have hm : ∀ c ∈ padStart2 (natToDigits (s / 60)), c ≠ ':' :=
    padStart2_ne_colon _ (natToDigitsAux_ne_colon _ _)
  unfold parseTime formatTime
  rw [show (String.mk (padStart2 (natToDigits (s / 60)) ++ ':' ::
      padStart2 (natToDigits (s % 60)))).data =
      padStart2 (natToDigits (s / 60)) ++ ':' :: padStart2 (natToDigits (s % 60)) from rfl]
  rw [splitAtColon_append _ _ hm]
  simp only [parseDigits_padStart2, parseDigits_natToDigits]
  have hdm : s / 60 * 60 + s % 60 = s := by omega
  rw [hdm]

/-! ## C10: worker quiescence after complete / pause / reset -/

/-- The worker states its driver actually produces: either no interval
is live, or exactly the one whose id is stored in `timerInterval`.
The main thread guarantees this by sending `start` only while its
`isRunning` flag is false, i.e. only when no worker interval is
live. -/
abbrev WInv (s : WState) : Prop :=
  s.intervals = [] ∨ ∃ i, s.timerInterval = some i ∧ s.intervals = [i]

/-- C10 counterexample trace: two `start` commands in a row, then the
leaked first interval fires twice. -/
def c10Trace : List WEvent :=
  [WEvent.start 5 0, WEvent.start 5 0, WEvent.fire 1 6000, WEvent.fire 1 7000]

/-- C10 counterexample: after a second `start` arrives while an
interval is still live, `clearInterval(timerInterval)` in the complete
branch clears only the stored id, so the leaked interval posts a
further `tick` and a second `complete` after the first `complete`, with
no intervening `start`. -/
theorem c10_counterexample :
    (wrun winit c10Trace).2 =
      [WorkerMsg.tick 0 6, WorkerMsg.complete, WorkerMsg.tick 0 7, WorkerMsg.complete] := by
  decide

theorem wrun_quiescent (es : List WEvent) :
    ∀ s : WState, s.intervals = [] → noStart es = true →
      (wrun s es).2 = [] ∧ (wrun s es).1.intervals = [] := by
  induction es with
  | nil => intro s hs _; exact ⟨rfl, hs⟩
  | cons e es ih =>
      intro s hs hns
      rw [noStart, List.all_cons, Bool.and_eq_true] at hns
      have hns2 : noStart es = true := hns.2
      cases e with
      | start d t => simp at hns
      | pause =>
          have hstep : (wstep s WEvent.pause).1.intervals = [] ∧
              (wstep s WEvent.pause).2 = [] := by
            unfold wstep
            cases h : s.timerInterval <;> simp [h, hs]
          have := ih (wstep s WEvent.pause).1 hstep.1 hns2
          simp only [wrun]
          exact ⟨by rw [hstep.2, this.1]; rfl, this.2⟩
      | reset =>
          have hstep : (wstep s WEvent.reset).1.intervals = [] ∧
              (wstep s WEvent.reset).2 = [] := by
            unfold wstep
            cases h : s.timerInterval <;> simp [h, hs]
          have := ih (wstep s WEvent.reset).1 hstep.1 hns2
          simp only [wrun]
          exact ⟨by rw [hstep.2, this.1]; rfl, this.2⟩
      | fire id t =>
          have hmem : id ∈ s.intervals ↔ False := by simp [hs]
          have hstep : (wstep s (WEvent.fire id t)).1 = s ∧
              (wstep s (WEvent.fire id t)).2 = [] := by
            unfold wstep
            simp [hs]
          have := ih (wstep s (WEvent.fire id t)).1 (by rw [hstep.1]; exact hs) hns2
          simp only [wrun]
          exact ⟨by rw [hstep.2, this.1]; rfl, this.2⟩

/-- C10 amended: the complete branch clears only the id stored in
`timerInterval`.  In every driver-consistent worker state (`WInv`,
guaranteed by the main thread sending `start` only while paused):
`pause` and `reset` leave no live interval and post nothing, a firing
that posts `complete` leaves no live interval, driver-consistent steps
preserve `WInv`, and from a state with no live interval the worker
posts no message until the next `start` command. -/
theorem c10_amended (s : WState) (hs : WInv s) :
    ((wstep s WEvent.pause).1.intervals = [] ∧ (wstep s WEvent.pause).2 = []) ∧
    ((wstep s WEvent.reset).1.intervals = [] ∧ (wstep s WEvent.reset).2 = []) ∧
    (∀ id now, WorkerMsg.complete ∈ (wstep s (WEvent.fire id now)).2 →
      (wstep s (WEvent.fire id now)).1.intervals = []) ∧
    (∀ e, (∀ d t, e = WEvent.start d t → s.intervals = []) → WInv (wstep s e).1) ∧
    (∀ es, s.intervals = [] → noStart es = true → (wrun s es).2 = []) := by
  have hpause : (wstep s WEvent.pause).1.intervals = [] ∧ (wstep s WEvent.pause).2 = [] := by
    unfold wstep
    rcases hs with hs | ⟨i, hti, hl⟩
    · cases h : s.timerInterval <;> simp [h, hs]
    · simp [hti, hl]
  have hreset : (wstep s WEvent.reset).1.intervals = [] ∧ (wstep s WEvent.reset).2 = [] := by
    unfold wstep
    rcases hs with hs | ⟨i, hti, hl⟩
    · cases h : s.timerInterval <;> simp [h, hs]
    · simp [hti, hl]
  refine ⟨hpause, hreset, ?_, ?_, ?_⟩
  · intro id now hc
    by_cases hmem : id ∈ s.intervals
    · rcases hs with hs | ⟨i, hti, hl⟩
      · rw [hs] at hmem
        simp at hmem
      · rw [hl] at hmem
        have hid : id = i := by simpa using hmem
        subst hid
        simp only [wstep] at hc ⊢
        rw [if_pos (by rw [hl]; exact List.mem_singleton_self id)] at hc ⊢
        split_ifs at hc ⊢ with hrem
        · simp [hti, hl]
        · simp at hc
    · simp only [wstep] at hc
      rw [if_neg hmem] at hc
      simp at hc
  · intro e he
    cases e with
    | start d t =>
        have hempty := he d t rfl
        unfold wstep
        right
        exact ⟨s.nextId, rfl, by simp [hempty]⟩
    | pause => exact Or.inl hpause.1
    | reset => exact Or.inl hreset.1
    | fire id t =>
        by_cases hmem : id ∈ s.intervals
        · rcases hs with hs | ⟨i, hti, hl⟩
          · rw [hs] at hmem
            simp at hmem
          · rw [hl] at hmem
            have hid : id = i := by simpa using hmem
            subst hid
            simp only [wstep]
            rw [if_pos (by rw [hl]; exact List.mem_singleton_self id)]
            split_ifs with hrem
            · left
              simp [hti, hl]
            · right
              exact ⟨id, hti, hl⟩
        · simp only [wstep]
          rw [if_neg hmem]
          exact hs
  · intro es hempty hns
    exact (wrun_quiescent es s hempty hns).1

/-- C10 witness: with the single live interval being the stored one, a
`pause` command leaves no live interval. -/
theorem c10_amended_witness :
    (wstep { intervals := [1], nextId := 2, timerInterval := some 1,
             startTime := some 0, duration := 5 } WEvent.pause).1.intervals = [] :=
  ((c10_amended
      { intervals := [1], nextId := 2, timerInterval := some 1,
        startTime := some 0, duration := 5 }
      (Or.inr ⟨1, rfl, rfl⟩)).1).1

end Pomodoro
